import Mathlib

/-!
Verification development for the queue-analytics system (frontend in
TypeScript plus a spec-described analytics engine).  Frontend helpers are
shallowly embedded from the TypeScript source; the analytics engine, whose
backend implementation is not part of the frontend tree, is modelled from
the specification where indicated.
-/

/-- JS Math.floor on a rational, in the computable normal form
num / den (equal to the mathematical floor, see jsFloor_eq). -/
def jsFloor (q : ℚ) : ℤ := q.num / q.den

/-- JS truncation toward zero of a rational (the rounding used by the JS
binary percent operator). -/
def jsTrunc (q : ℚ) : ℤ := if q < 0 then -(jsFloor (-q)) else jsFloor q

/-- JS remainder a percent b: a - b * trunc(a / b), sign of the dividend. -/
def jsMod (a b : ℚ) : ℚ := a - b * (jsTrunc (a / b) : ℚ)

/-- JS Math.round on a finite value: floor of x + 1/2. -/
def jsRound (q : ℚ) : ℤ := jsFloor (q + 1/2)

/-- Embeds validators.polygonPoints from src/frontend/lib/api-client.ts:
returns points.length >= 3 && points.length <= 10. -/
def polygonPoints (points : List (ℚ × ℚ)) : Bool :=
  decide (3 ≤ points.length) && decide (points.length ≤ 10)

/-- Embeds the accepting condition of handleDoubleClick in the polygon
canvas component: onComplete fires exactly when points.length >= 3. -/
def handleDoubleClickCompletes (points : List (ℚ × ℚ)) : Bool :=
  decide (3 ≤ points.length)

/-- Optional analysis options of videoApi.analyzeSingleZone and
videoApi.analyzeMultiZone (each field itself optional in TS). -/
structure AnalyzeOptions where
  conf : Option ℚ
  min_wait_sec_filter : Option ℚ
  sample_stride : Option ℚ
deriving DecidableEq

/-- JS defaulting v || d for a possibly absent number v: an absent value
and the falsy number 0 both fall back to the default d. -/
def jsOr (v : Option ℚ) (d : ℚ) : ℚ :=
  match v with
  | none => d
  | some x => if x = 0 then d else x

/-- Request body of POST /analyze as built by videoApi.analyzeSingleZone. -/
structure AnalyzeBody where
  video_id : String
  roi : List ℚ
  conf : ℚ
  min_wait_sec_filter : ℚ
  sample_stride : ℚ
deriving DecidableEq

/-- One zone entry of the multi-zone request payload. -/
structure ZonePayload where
  name : String
  polygon : List (List ℚ)
deriving DecidableEq

/-- Request body of POST /analyze-multi-zone as built by
videoApi.analyzeMultiZone. -/
structure AnalyzeMultiBody where
  video_id : String
  zones : List ZonePayload
  conf : ℚ
  min_wait_sec_filter : ℚ
  sample_stride : ℚ
deriving DecidableEq

/-- Embeds videoApi.analyzeSingleZone from src/frontend/lib/api-client.ts:
conf, min_wait_sec_filter and sample_stride default via the JS or-operator
to 0.4, 1.0 and 40. -/
def analyzeSingleZone (videoId : String) (roi : List ℚ)
    (options : Option AnalyzeOptions) : AnalyzeBody :=
  { video_id := videoId
    roi := roi
    conf := jsOr (options.bind (·.conf)) (2/5)
    min_wait_sec_filter := jsOr (options.bind (·.min_wait_sec_filter)) 1
    sample_stride := jsOr (options.bind (·.sample_stride)) 40 }

/-- Embeds videoApi.analyzeMultiZone from src/frontend/lib/api-client.ts. -/
def analyzeMultiZone (videoId : String) (zones : List ZonePayload)
    (options : Option AnalyzeOptions) : AnalyzeMultiBody :=
  { video_id := videoId
    zones := zones
    conf := jsOr (options.bind (·.conf)) (2/5)
    min_wait_sec_filter := jsOr (options.bind (·.min_wait_sec_filter)) 1
    sample_stride := jsOr (options.bind (·.sample_stride)) 40 }

/-- ROI rectangle state of the single-zone app. -/
structure Roi where
  x1 : ℚ
  y1 : ℚ
  x2 : ℚ
  y2 : ℚ
deriving DecidableEq

/-- Embeds handleMouseMove from
src/frontend/jawek-ahla-jaw/src/App.tsx: clamps the corners of the drag
rectangle with Math.max/Math.min against 0 and the video dimensions. -/
def handleMouseMove (videoW videoH startX startY x y : ℚ) : Roi :=
  { x1 := max 0 (min startX x)
    y1 := max 0 (min startY y)
    x2 := min videoW (max startX x)
    y2 := min videoH (max startY y) }

/-- Embeds formatTime from the zone analytics dashboard component
(src/unnamed/part_004): null waits render as N/A, otherwise a
minutes/seconds string built with Math.floor. -/
def formatTime (seconds : Option ℚ) : String :=
  match seconds with
  | none => "N/A"
  | some s =>
    let mins : ℤ := jsFloor (s / 60)
    let secs : ℤ := jsFloor (jsMod s 60)
    if 0 < mins then toString mins ++ "m " ++ toString secs ++ "s"
    else toString secs ++ "s"

/-- Modelled from the spec: a Zone of the Zone Registry (section 3), an
immutable named polygon with a stable integer id.  The backend engine that
owns this type is not part of the frontend source tree. -/
structure SpecZone where
  id : ℕ
  name : String
  polygon : List (ℚ × ℚ)
deriving DecidableEq, Inhabited

/-- Modelled from the spec: per-session configuration (sections 4.3, 4.5
and 6); fps is supplied separately to start.  The conf threshold is a
pass-through value, not used internally. -/
structure SpecConfig where
  min_wait_sec_filter : ℚ
  grace_window : ℕ
  sample_stride : ℕ
  conf : ℚ
deriving DecidableEq, Inhabited

/-- Modelled from the spec: one detection of a frame, an opaque stable
identity plus a bounding box (x1, y1, x2, y2). -/
structure Detection where
  identity : ℕ
  bbox : ℚ × ℚ × ℚ × ℚ
deriving DecidableEq, Inhabited

/-- Modelled from the spec: the representative point of a detection is the
bounding-box centroid (section 4.1). -/
def centroid (b : ℚ × ℚ × ℚ × ℚ) : ℚ × ℚ :=
  ((b.1 + b.2.2.1) / 2, (b.2.1 + b.2.2.2) / 2)

/-- Modelled from the spec: a boundary test for one polygon edge, used to
treat boundary points as inside (section 4.1 policy choice). -/
def onSegment (p a b : ℚ × ℚ) : Bool :=
  decide ((b.1 - a.1) * (p.2 - a.2) = (b.2 - a.2) * (p.1 - a.1)) &&
  decide (min a.1 b.1 ≤ p.1) && decide (p.1 ≤ max a.1 b.1) &&
  decide (min a.2 b.2 ≤ p.2) && decide (p.2 ≤ max a.2 b.2)

/-- Modelled from the spec: one edge's contribution to the standard
ray-casting crossing count, in the division-free cross-product form. -/
def edgeCrossing (p a b : ℚ × ℚ) : Bool :=
  if decide (a.2 ≤ p.2) != decide (b.2 ≤ p.2) then
    if 0 < b.2 - a.2 then
      decide ((p.1 - a.1) * (b.2 - a.2) < (b.1 - a.1) * (p.2 - a.2))
    else
      decide ((b.1 - a.1) * (p.2 - a.2) < (p.1 - a.1) * (b.2 - a.2))
  else false

/-- Edge list of an implicitly closed polygon. -/
def polygonEdges (poly : List (ℚ × ℚ)) : List ((ℚ × ℚ) × (ℚ × ℚ)) :=
  match poly with
  | [] => []
  | p0 :: _ => poly.zip (poly.drop 1 ++ [p0])

/-- Modelled from the spec: the Membership Tester point-in-polygon rule,
a standard even-odd ray cast with boundary points treated as inside
(section 4.1). -/
def pointInPolygon (p : ℚ × ℚ) (poly : List (ℚ × ℚ)) : Bool :=
  (polygonEdges poly).any (fun e => onSegment p e.1 e.2) ||
  decide ((polygonEdges poly).countP (fun e => edgeCrossing p e.1 e.2) % 2 = 1)

/-- Modelled from the spec: the Membership Tester contract
zones_for_point(point) -> set of zone ids (section 4.1). -/
def zonesForPoint (zones : List SpecZone) (p : ℚ × ℚ) : List ℕ :=
  (zones.filter (fun z => pointInPolygon p z.polygon)).map (·.id)

/-- Modelled from the spec: the Frame Clock contract
elapsed_seconds(frame_index) = frame_index / fps (section 4.2). -/
def elapsed (frame : ℕ) (fps : ℚ) : ℚ := (frame : ℚ) / fps

/-- Modelled from the spec: an open dwell interval of the Track Ledger,
the PRESENT state of one (identity, zone) pair with its entry frame and
the last frame at which presence was confirmed (section 4.3). -/
structure OpenIv where
  identity : ℕ
  zone_id : ℕ
  enter_frame : ℕ
  last_present : ℕ
deriving DecidableEq, Inhabited

/-- Modelled from the spec: a closed dwell interval of the Track Ledger
(section 3, Track record). -/
structure ClosedIv where
  identity : ℕ
  zone_id : ℕ
  enter_frame : ℕ
  exit_frame : ℕ
deriving DecidableEq, Inhabited

/-- Modelled from the spec: wait-time of a closed interval, computed as
elapsed_seconds(exit_frame) - elapsed_seconds(enter_frame) (section 4.3). -/
def waitSec (civ : ClosedIv) (fps : ℚ) : ℚ :=
  elapsed civ.exit_frame fps - elapsed civ.enter_frame fps

/-- Modelled from the spec: the PRESENT-state transition of the Track
Ledger for one open interval at one processed frame (section 4.3).  In
the zone: stay open and refresh last_present.  Observed elsewhere: close
at the last confirmed-present frame.  Unobserved beyond the grace window:
close at the last confirmed-present frame.  Otherwise: stay open. -/
def stepOpenIv (inZone observed : Bool) (grace frame : ℕ) (iv : OpenIv) :
    Option OpenIv × Option ClosedIv :=
  if inZone then (some { iv with last_present := frame }, none)
  else if observed then
    (none, some ⟨iv.identity, iv.zone_id, iv.enter_frame, iv.last_present⟩)
  else if iv.last_present + grace < frame then
    (none, some ⟨iv.identity, iv.zone_id, iv.enter_frame, iv.last_present⟩)
  else (some iv, none)

/-- Polygon of the zone with the given id (empty when absent; open
intervals only ever refer to registered zones). -/
def polygonOf (zones : List SpecZone) (zid : ℕ) : List (ℚ × ℚ) :=
  match zones.find? (fun z => z.id = zid) with
  | some z => z.polygon
  | none => []

/-- Whether the given identity has a detection inside the given zone in
this frame. -/
def identInZone (zones : List SpecZone) (dets : List Detection)
    (zid ident : ℕ) : Bool :=
  dets.any (fun d =>
    d.identity = ident && pointInPolygon (centroid d.bbox) (polygonOf zones zid))

/-- Whether the given identity is observed at all in this frame. -/
def identObserved (dets : List Detection) (ident : ℕ) : Bool :=
  dets.any (fun d => d.identity = ident)

/-- Distinct identities detected inside a zone in this frame. -/
def identsInZone (z : SpecZone) (dets : List Detection) : List ℕ :=
  ((dets.filter (fun d => pointInPolygon (centroid d.bbox) z.polygon)).map
    (·.identity)).dedup

/-- Modelled from the spec: a QueueSnapshot, one per zone per processed
frame (section 3). -/
structure QueueSnapshot where
  frame_index : ℕ
  timestamp_sec : ℚ
  zone_id : ℕ
  count : ℕ
deriving DecidableEq, Inhabited

/-- Modelled from the spec: the error taxonomy of section 7 that the
Session Orchestrator surfaces. -/
inductive EngineError where
  | configurationError : String → EngineError
  | outOfOrderFrameError : EngineError
deriving DecidableEq

/-- Modelled from the spec: one analysis session, owning the Track
Ledger, Metrics Aggregator and frame-order state (section 4.6). -/
structure Session where
  zones : List SpecZone
  fps : ℚ
  cfg : SpecConfig
  openIvs : List OpenIv
  closedIvs : List ClosedIv
  lastFrame : Option ℕ
  framesFed : ℕ
  snapshots : List QueueSnapshot
deriving DecidableEq, Inhabited

/-- Modelled from the spec: start(zones, fps, config) validates the
configuration and creates a fresh session; missing/zero fps, a polygon
with fewer than 3 points, or duplicate zone ids are configuration errors
raised before any session exists (sections 4.6 and 7). -/
def start (zones : List SpecZone) (fps : Option ℚ) (cfg : SpecConfig) :
    Except EngineError Session :=
  match fps with
  | none => .error (.configurationError "missing fps")
  | some f =>
    if f = 0 then .error (.configurationError "zero fps")
    else if zones.any (fun z => z.polygon.length < 3) then
      .error (.configurationError "polygon with fewer than 3 points")
    else if (zones.map (·.id)).Nodup then
      .ok ⟨zones, f, cfg, [], [], none, 0, []⟩
    else .error (.configurationError "duplicate zone ids")

/-- Modelled from the spec: the per-frame advance of the Track Ledger and
Metrics Aggregator (sections 4.3 and 4.4): step every open interval,
append the intervals that closed, open fresh intervals for identities
newly present in a zone, and append one queue snapshot per zone whose
count is the size of that zone's open-interval set. -/
def advance (s : Session) (frame : ℕ) (dets : List Detection) : Session :=
  let stepped := s.openIvs.map (fun iv =>
    stepOpenIv (identInZone s.zones dets iv.zone_id iv.identity)
      (identObserved dets iv.identity) s.cfg.grace_window frame iv)
  let kept := stepped.filterMap Prod.fst
  let newClosed := stepped.filterMap Prod.snd
  let fresh := s.zones.flatMap (fun z =>
    ((identsInZone z dets).filter (fun i =>
      !(kept.any (fun iv => iv.identity = i && iv.zone_id = z.id)))).map
      (fun i => OpenIv.mk i z.id frame frame))
  let openNew := kept ++ fresh
  let snaps := s.zones.map (fun z =>
    QueueSnapshot.mk frame (elapsed frame s.fps) z.id
      (openNew.countP (fun iv => iv.zone_id = z.id)))
  { s with
    openIvs := openNew
    closedIvs := s.closedIvs ++ newClosed
    lastFrame := some frame
    framesFed := s.framesFed + 1
    snapshots := s.snapshots ++ snaps }

/-- Modelled from the spec: feed(session, frame_index, detections)
processes one frame and fails fatally on an out-of-order frame index
(sections 4.6 and 7; frames must arrive in non-decreasing order).  Before
any frame was fed, lastFrame defaults to 0 and no natural frame index can
be below it, so the first frame is unconstrained. -/
def feedS (s : Session) (frame : ℕ) (dets : List Detection) :
    Except EngineError Session :=
  if frame < s.lastFrame.getD 0 then .error .outOfOrderFrameError
  else .ok (advance s frame dets)

/-- Feeds a whole frame sequence through a session. -/
def feedAll (s : Session) (frames : List (ℕ × List Detection)) :
    Except EngineError Session :=
  match frames with
  | [] => .ok s
  | (f, dets) :: rest =>
    match feedS s f dets with
    | .error e => .error e
    | .ok s2 => feedAll s2 rest

/-- Modelled from the spec: a full session run, start followed by feeding
every frame in order (section 4.6). -/
def runSession (zones : List SpecZone) (fps : Option ℚ) (cfg : SpecConfig)
    (frames : List (ℕ × List Detection)) : Except EngineError Session :=
  match start zones fps cfg with
  | .error e => .error e
  | .ok s0 => feedAll s0 frames

/-- Modelled from the spec: end of stream forces closure of all remaining
open intervals using the final frame index (section 4.3). -/
def allClosedOf (s : Session) : List ClosedIv :=
  s.closedIvs ++ s.openIvs.map (fun iv =>
    ClosedIv.mk iv.identity iv.zone_id iv.enter_frame (s.lastFrame.getD 0))

/-- Closed intervals of a finalized run; an aborted run yields none. -/
def closedIntervalsOf (e : Except EngineError Session) : List ClosedIv :=
  match e with
  | .error _ => []
  | .ok s => allClosedOf s

/-- Per-zone summary record, mirroring the ZoneMetrics interface of the
zone analytics dashboard (src/unnamed/part_004): nullable wait and queue
statistics plus the measured/tracked people counts. -/
structure ZoneMetricsS where
  avg_wait : Option ℚ
  min_wait : Option ℚ
  max_wait : Option ℚ
  avg_queue_len : Option ℚ
  max_queue_len : ℕ
  num_people_measured : ℕ
  total_people_tracked : ℕ
deriving DecidableEq, Inhabited

/-- Per-zone result record, mirroring the ZoneResult interface of the
zone analytics dashboard (src/unnamed/part_004). -/
structure ZoneResultS where
  zone_name : String
  polygon_id : ℕ
  metrics : ZoneMetricsS
  queue_timestamps : List ℚ
  queue_lengths : List ℕ
  wait_times : List ℚ
deriving DecidableEq, Inhabited

/-- Sum of a list of rationals. -/
def qsum (l : List ℚ) : ℚ := l.foldl (· + ·) 0

/-- Modelled from the spec: the Metrics Aggregator final per-zone
statistics (section 4.4): avg = sum/count with None when no measured
samples exist, min/max from the observed set, measured people counted
only when their wait reaches min_wait_sec_filter, tracked people counting
every distinct identity with an interval in the zone. -/
def zoneResultOf (z : SpecZone) (allClosed : List ClosedIv)
    (snaps : List QueueSnapshot) (fps thr : ℚ) : ZoneResultS :=
  let ivs := allClosed.filter (fun civ => civ.zone_id = z.id)
  let measuredIvs := ivs.filter (fun civ => decide (thr ≤ waitSec civ fps))
  let waits := measuredIvs.map (fun civ => waitSec civ fps)
  let zsnaps := snaps.filter (fun q => q.zone_id = z.id)
  let lens := zsnaps.map (·.count)
  { zone_name := z.name
    polygon_id := z.id
    metrics :=
      { avg_wait :=
          match waits with
          | [] => none
          | w :: ws => some (qsum (w :: ws) / (w :: ws).length)
        min_wait :=
          match waits with
          | [] => none
          | w :: ws => some (ws.foldl min w)
        max_wait :=
          match waits with
          | [] => none
          | w :: ws => some (ws.foldl max w)
        avg_queue_len :=
          match lens with
          | [] => none
          | c :: cs => some (qsum ((c :: cs).map (fun n : ℕ => (n : ℚ))) / (c :: cs).length)
        max_queue_len := lens.foldl max 0
        num_people_measured := (measuredIvs.map (·.identity)).dedup.length
        total_people_tracked := (ivs.map (·.identity)).dedup.length }
    queue_timestamps := zsnaps.map (·.timestamp_sec)
    queue_lengths := lens
    wait_times := waits }

/-- Modelled from the spec: the AnalysisResult returned by finalize
(section 6). -/
structure AnalysisResultS where
  zones : List ZoneResultS
  fps : ℚ
  frame_count : ℕ
  duration_sec : ℚ
deriving DecidableEq, Inhabited

/-- Modelled from the spec: finalize(session) closes all open intervals
and returns the complete per-zone metrics and time series (section 4.6). -/
def finalizeS (s : Session) : AnalysisResultS :=
  { zones := s.zones.map (fun z =>
      zoneResultOf z (allClosedOf s) s.snapshots s.fps s.cfg.min_wait_sec_filter)
    fps := s.fps
    frame_count := s.framesFed
    duration_sec := elapsed (s.lastFrame.getD 0) s.fps }

/-- Zone results of a finalized run; an aborted run yields none. -/
def analysisZonesOf (e : Except EngineError Session) : List ZoneResultS :=
  match e with
  | .error _ => []
  | .ok s => (finalizeS s).zones

/-- Embeds the totalPeople reduction of loadAnalysisData in
src/frontend/components/pages/analytics-dashboard.tsx. -/
def totalPeopleOf (zones : List ZoneResultS) : ℕ :=
  (zones.map (fun z => z.metrics.total_people_tracked)).sum

/-- Embeds the measuredPeople reduction of loadAnalysisData in
src/frontend/components/pages/analytics-dashboard.tsx. -/
def measuredPeopleOf (zones : List ZoneResultS) : ℕ :=
  (zones.map (fun z => z.metrics.num_people_measured)).sum

/-- Embeds customersAbandoned of loadAnalysisData: totalPeople minus
measuredPeople (a JS subtraction, so modelled in ℤ). -/
def customersAbandoned (zones : List ZoneResultS) : ℤ :=
  (totalPeopleOf zones : ℤ) - (measuredPeopleOf zones : ℤ)

/-- Embeds queueEfficiency of loadAnalysisData:
Math.round(measured / total * 100) when total is positive, else 0. -/
def queueEfficiency (zones : List ZoneResultS) : ℤ :=
  if 0 < totalPeopleOf zones then
    jsRound ((measuredPeopleOf zones : ℚ) / (totalPeopleOf zones : ℚ) * 100)
  else 0

/-- Histogram bucket of createHistogram in src/unnamed/part_004; the
range label string is abstracted to its numeric endpoints lo and hi, from
which the source renders the label. -/
structure HBucket where
  lo : ℚ
  hi : ℚ
  count : ℕ
  percentage : ℚ
deriving DecidableEq, Inhabited

/-- JS Math.min spread over a list; only applied to non-empty data in
createHistogram, the empty case is unreachable there. -/
def jsListMin (l : List ℚ) : ℚ :=
  match l with
  | [] => 0
  | x :: xs => xs.foldl min x

/-- JS Math.max spread over a list; only applied to non-empty data in
createHistogram, the empty case is unreachable there. -/
def jsListMax (l : List ℚ) : ℚ :=
  match l with
  | [] => 0
  | x :: xs => xs.foldl max x

/-- The histogram[i].count++ step: none models the TypeError JS throws
when the index is outside the bucket array. -/
def bumpCount (h : List HBucket) (i : ℕ) : Option (List HBucket) :=
  match h, i with
  | [], _ => none
  | b :: bs, 0 => some ({ b with count := b.count + 1 } :: bs)
  | b :: bs, n + 1 => (bumpCount bs n).map (fun t => b :: t)

/-- Bucket index of one value:
Math.min(Math.floor((value - min) / bucketSize), buckets - 1). -/
def histIndex (mn bucketSize : ℚ) (buckets : ℕ) (v : ℚ) : ℤ :=
  min (jsFloor ((v - mn) / bucketSize)) ((buckets : ℤ) - 1)

/-- The data.forEach counting loop of createHistogram; none models a
thrown TypeError on an out-of-range bucket index. -/
def histFill (mn bucketSize : ℚ) (buckets : ℕ) :
    List HBucket → List ℚ → Option (List HBucket)
  | h, [] => some h
  | h, v :: vs =>
    let i := histIndex mn bucketSize buckets v
    if i < 0 then none
    else
      match bumpCount h i.toNat with
      | none => none
      | some h2 => histFill mn bucketSize buckets h2 vs

/-- The maxCount reduction of createHistogram over the bucket counts. -/
def maxCountOf (h : List HBucket) : ℕ := (h.map (·.count)).foldl max 0

/-- Embeds createHistogram from src/unnamed/part_004: empty data gives an
empty bucket list; otherwise buckets of width (max - min)/buckets are
filled by Math.floor indexing clamped to the last bucket, then a
percentage pass divides by the maximal count.  A zero bucketSize (all
data equal) makes the JS index NaN and histogram[NaN].count++ throws a
TypeError, modelled as none. -/
def createHistogram (data : List ℚ) (buckets : ℕ) : Option (List HBucket) :=
  if data.length = 0 then some []
  else
    let mn := jsListMin data
    let mx := jsListMax data
    let bucketSize := (mx - mn) / (buckets : ℚ)
    if bucketSize = 0 then none
    else
      let histogram := (List.range buckets).map (fun i : ℕ =>
        HBucket.mk (mn + (i : ℚ) * bucketSize) (mn + ((i : ℚ) + 1) * bucketSize) 0 0)
      match histFill mn bucketSize buckets histogram data with
      | none => none
      | some h =>
        let maxCount := maxCountOf h
        some (h.map (fun b =>
          { b with percentage :=
              if 0 < maxCount then ((b.count : ℚ) / (maxCount : ℚ)) * 100
              else 0 }))

/-- QueueZone of the AI recommendation service (src/unnamed/part_000). -/
structure QueueZone where
  id : String
  name : String
  count : ℚ
  wait_time : ℚ
  efficiency : ℚ
  alerts : Option (List String)
deriving DecidableEq, Inhabited

/-- RecommendationRequest of the AI recommendation service. -/
structure RecommendationRequest where
  zones : List QueueZone
  timestamp : String
  business_hours : Option Bool
  peak_time : Option Bool
deriving DecidableEq, Inhabited

/-- AIRecommendation of the AI recommendation service. -/
structure AIRecommendation where
  priority : String
  action : String
  reason : String
  impact : String
  category : String
deriving DecidableEq, Inhabited

/-- The business_impact record of AIResponse. -/
structure BusinessImpact where
  efficiency_score : ℚ
  estimated_revenue_impact : String
  customer_satisfaction : String
deriving DecidableEq, Inhabited

/-- AIResponse of the AI recommendation service. -/
structure AIResponse where
  priority_recommendations : List AIRecommendation
  business_impact : BusinessImpact
  strategic_insights : List String
  alert_level : String
  confidence_score : ℚ
  ai_powered : Bool
deriving DecidableEq, Inhabited

/-- Embeds getFallbackRecommendations from src/unnamed/part_000: rule
based recommendations from average wait and total customer count, with
efficiency_score = max(60, 100 - avgWaitTime * 10) and ai_powered false.
The toFixed(1) number formatting inside one reason string is abstracted
to toString. -/
def getFallbackRecommendations (request : RecommendationRequest) : AIResponse :=
  let totalCustomers := qsum (request.zones.map (·.count))
  let avgWaitTime := qsum (request.zones.map (·.wait_time)) / (request.zones.length : ℚ)
  let alertLevel :=
    if 5 < avgWaitTime then "critical"
    else if 3 < avgWaitTime then "warning"
    else "success"
  let recommendations : List AIRecommendation :=
    (if 5 < avgWaitTime then
      [AIRecommendation.mk "high" "Add additional staff immediately"
        ("Average wait time of " ++ toString avgWaitTime ++
          " minutes exceeds optimal threshold")
        "Reduce customer abandonment and improve satisfaction" "staffing"]
    else if 3 < avgWaitTime then
      [AIRecommendation.mk "medium" "Monitor queue flow and prepare backup staff"
        "Wait times approaching suboptimal levels"
        "Prevent queue buildup during peak periods" "operations"]
    else []) ++
    (if 15 < totalCustomers then
      [AIRecommendation.mk "medium" "Implement express lane for simple purchases"
        "High customer volume detected"
        "Improve overall queue efficiency by 25 percent" "customer_experience"]
    else [])
  { priority_recommendations :=
      if 0 < recommendations.length then recommendations
      else
        [AIRecommendation.mk "low" "Continue current operations"
          "Queue performance within optimal parameters"
          "Maintain excellent customer experience" "operations"]
    business_impact :=
      { efficiency_score := max 60 (100 - avgWaitTime * 10)
        estimated_revenue_impact := if 10 < totalCustomers then "+$50/day" else "Stable"
        customer_satisfaction :=
          if avgWaitTime < 3 then "Excellent"
          else if avgWaitTime < 5 then "Good"
          else "Needs Improvement" }
    strategic_insights :=
      ["Consider implementing mobile ordering for peak times",
        "Track customer patterns to optimize staffing schedules"]
    alert_level := alertLevel
    confidence_score := 75
    ai_powered := false }

/-- A concrete square zone used to exercise the engine model. -/
def demoZone : SpecZone := ⟨1, "caisse", [(0, 0), (4, 0), (4, 4), (0, 4)]⟩

/-- A concrete session configuration: 1 second wait filter, no grace
window, stride 40. -/
def demoCfg : SpecConfig := ⟨1, 0, 40, 2/5⟩

/-- A concrete detection whose bounding-box centroid (2, 2) lies inside
demoZone. -/
def demoDet : Detection := ⟨7, (1, 1, 3, 3)⟩

/-- Two frames with no detections at all. -/
def demoFramesEmpty : List (ℕ × List Detection) := [(0, []), (1, [])]

/-- A run of the engine on the empty-detections frames. -/
def demoRunEmpty : Except EngineError Session :=
  runSession [demoZone] (some 10) demoCfg demoFramesEmpty

/-- The session produced by demoRunEmpty. -/
def demoSessionEmpty : Session := demoRunEmpty.toOption.getD default

/-- A run feeding a single frame holding a single in-zone detection. -/
def demoRunOne : Except EngineError Session :=
  runSession [demoZone] (some 10) demoCfg [(0, [demoDet])]



/-- An eleven-point polygon, used to probe the upper validation bound. -/
def elevenPoints : List (ℚ × ℚ) := List.replicate 11 (0, 0)

/-- A concrete one-zone recommendation request. -/
def demoRequest : RecommendationRequest :=
  ⟨[⟨"z1", "Caisse 1", 5, 2, 80, none⟩], "2024-01-01T10:00:00Z", none, none⟩

/-- Modelled from the spec: the Track Ledger state soundness invariant, an
open interval never postdates its own confirmation and never leads the
session frame cursor, and closed intervals are well-ordered. -/
def SessionInv (s : Session) : Prop :=
  (∀ iv ∈ s.openIvs,
    iv.enter_frame ≤ iv.last_present ∧ iv.last_present ≤ s.lastFrame.getD 0) ∧
  (∀ civ ∈ s.closedIvs, civ.enter_frame ≤ civ.exit_frame)

theorem jsFloor_eq (q : ℚ) : jsFloor q = ⌊q⌋ := Rat.floor_def.symm

theorem if_length_pos_ne_nil {α : Type} (l : List α) (d : α) :
    (if 0 < l.length then l else [d]) ≠ [] := by
  split
  · next h => exact List.length_pos.mp h
  · simp

theorem clamp1d (W s x : ℚ) (h1 : 0 ≤ s) (h2 : s ≤ W) (h3 : 0 ≤ x) (h4 : x ≤ W) :

    0 ≤ max 0 (min s x) ∧ max 0 (min s x) ≤ min W (max s x) ∧
      min W (max s x) ≤ W := by
  refine ⟨le_max_left _ _, ?_, min_le_left _ _⟩
  apply max_le
  · exact le_min (h1.trans h2) (h1.trans (le_max_left _ _))
  · exact le_min ((min_le_left _ _).trans h2)
      ((min_le_left _ _).trans (le_max_left _ _))

/-- C4: the claim that any list of at least 3 points validates is false:
validators.polygonPoints also enforces an upper bound of 10 points, so an
11-point polygon is rejected despite having at least 3 points. -/
theorem C4_counterexample :
    ¬ (polygonPoints elevenPoints = true ↔ 3 ≤ elevenPoints.length) := by
  decide

/-- C4 (amended): validators.polygonPoints accepts a point list exactly
when it has between 3 and 10 points, and the polygon-canvas double-click
completes a zone exactly when at least 3 points were placed. -/
theorem C4_polygon_validation (points : List (ℚ × ℚ)) :
    (polygonPoints points = true ↔ (3 ≤ points.length ∧ points.length ≤ 10)) ∧
    (handleDoubleClickCompletes points = true ↔ 3 ≤ points.length) := by
  constructor <;> simp [polygonPoints, handleDoubleClickCompletes]

/-- C5: the claim that caller-supplied configuration values are passed
through unchanged is false: a caller-supplied conf of 0 is replaced by the
default 0.4 because the JS or-operator treats 0 as absent. -/
theorem C5_counterexample :
    (analyzeSingleZone "v" [0, 0, 1, 1] (some ⟨some 0, some 1, some 40⟩)).conf ≠ 0 := by
  norm_num [analyzeSingleZone, jsOr]

/-- C6: missing or zero fps makes start fail with a configuration error,
so no session value is ever produced, and the frame clock obeys
elapsed_seconds(frame_index) = frame_index / fps. -/
theorem C6_fps_validation :
    (∀ zones cfg, start zones none cfg =
      .error (.configurationError "missing fps")) ∧
    (∀ zones cfg, start zones (some 0) cfg =
      .error (.configurationError "zero fps")) ∧
    (∀ frame (f : ℚ), elapsed frame f = (frame : ℚ) / f) := by
  refine ⟨fun zones cfg => rfl, fun zones cfg => ?_, fun frame f => rfl⟩
  simp [start]

/-- C9: a fallback recommendation response for a request with at least one
zone is never AI powered, always carries at least one priority
recommendation, and its efficiency score is at least 60. -/
theorem C9_fallback_recommendations (request : RecommendationRequest)
    (hz : request.zones ≠ []) :
    (getFallbackRecommendations request).ai_powered = false ∧
    (getFallbackRecommendations request).priority_recommendations ≠ [] ∧
    60 ≤ (getFallbackRecommendations request).business_impact.efficiency_score :=
  ⟨rfl, if_length_pos_ne_nil _ _, le_max_left 60 _⟩

theorem C9_witness :
    demoRequest.zones ≠ [] ∧
    ((getFallbackRecommendations demoRequest).ai_powered = false ∧
     (getFallbackRecommendations demoRequest).priority_recommendations ≠ [] ∧
     60 ≤ (getFallbackRecommendations demoRequest).business_impact.efficiency_score) :=
  ⟨by simp [demoRequest], C9_fallback_recommendations demoRequest (by simp [demoRequest])⟩

/-- C10: the claim that the drag rectangle is well-ordered for every start
point and pointer position is false: a start point beyond the video width
gives x1 greater than x2, since x1 is not clamped above and x2 not below. -/
theorem C10_counterexample :
    ¬ ((handleMouseMove 400 300 500 0 500 0).x1 ≤
       (handleMouseMove 400 300 500 0 500 0).x2) := by
  decide

/-- C10 (amended): whenever the drag start point and the current pointer
position both lie within the video frame, the ROI rectangle is clamped
and well-ordered: 0 <= x1 <= x2 <= width and 0 <= y1 <= y2 <= height. -/
theorem C10_roi_clamped (videoW videoH startX startY x y : ℚ)
    (hs1 : 0 ≤ startX) (hs2 : startX ≤ videoW)
    (hs3 : 0 ≤ startY) (hs4 : startY ≤ videoH)
    (hp1 : 0 ≤ x) (hp2 : x ≤ videoW)
    (hp3 : 0 ≤ y) (hp4 : y ≤ videoH) :
    0 ≤ (handleMouseMove videoW videoH startX startY x y).x1 ∧
    (handleMouseMove videoW videoH startX startY x y).x1 ≤
      (handleMouseMove videoW videoH startX startY x y).x2 ∧
    (handleMouseMove videoW videoH startX startY x y).x2 ≤ videoW ∧
    0 ≤ (handleMouseMove videoW videoH startX startY x y).y1 ∧
    (handleMouseMove videoW videoH startX startY x y).y1 ≤
      (handleMouseMove videoW videoH startX startY x y).y2 ∧
    (handleMouseMove videoW videoH startX startY x y).y2 ≤ videoH := by
  obtain ⟨a1, a2, a3⟩ := clamp1d videoW startX x hs1 hs2 hp1 hp2
  obtain ⟨b1, b2, b3⟩ := clamp1d videoH startY y hs3 hs4 hp3 hp4
  exact ⟨a1, a2, a3, b1, b2, b3⟩

theorem C10_witness :
    ((0:ℚ) ≤ 10 ∧ (10:ℚ) ≤ 400 ∧ (0:ℚ) ≤ 20 ∧ (20:ℚ) ≤ 300 ∧
     (0:ℚ) ≤ 30 ∧ (30:ℚ) ≤ 400 ∧ (0:ℚ) ≤ 40 ∧ (40:ℚ) ≤ 300) ∧
    (0 ≤ (handleMouseMove 400 300 10 20 30 40).x1 ∧
     (handleMouseMove 400 300 10 20 30 40).x1 ≤
       (handleMouseMove 400 300 10 20 30 40).x2 ∧
     (handleMouseMove 400 300 10 20 30 40).x2 ≤ 400 ∧
     0 ≤ (handleMouseMove 400 300 10 20 30 40).y1 ∧
     (handleMouseMove 400 300 10 20 30 40).y1 ≤
       (handleMouseMove 400 300 10 20 30 40).y2 ∧
     (handleMouseMove 400 300 10 20 30 40).y2 ≤ 300) :=
  ⟨by refine ⟨?_, ?_, ?_, ?_, ?_, ?_, ?_, ?_⟩ <;> decide,
   C10_roi_clamped 400 300 10 20 30 40 (by decide) (by decide) (by decide)
     (by decide) (by decide) (by decide) (by decide) (by decide)⟩

/-- C5 (amended): analyzeSingleZone and analyzeMultiZone pass non-zero
caller-supplied conf, min_wait_sec_filter and sample_stride through
unchanged; an omitted options object and falsy zero values alike fall
back to the defaults conf = 0.4 (written 2/5), min_wait_sec_filter = 1.0
and sample_stride = 40, because defaulting uses the JS or-operator. -/
theorem C5_analyze_passthrough (videoId : String) (roi : List ℚ)
    (zones : List ZonePayload) (c m st : ℚ)
    (hc : c ≠ 0) (hm : m ≠ 0) (hst : st ≠ 0) :
    ((analyzeSingleZone videoId roi none).conf = 2/5 ∧
     (analyzeSingleZone videoId roi none).min_wait_sec_filter = 1 ∧
     (analyzeSingleZone videoId roi none).sample_stride = 40 ∧
     (analyzeMultiZone videoId zones none).conf = 2/5 ∧
     (analyzeMultiZone videoId zones none).min_wait_sec_filter = 1 ∧
     (analyzeMultiZone videoId zones none).sample_stride = 40) ∧
    ((analyzeSingleZone videoId roi (some ⟨some c, some m, some st⟩)).conf = c ∧
     (analyzeSingleZone videoId roi (some ⟨some c, some m, some st⟩)).min_wait_sec_filter = m ∧
     (analyzeSingleZone videoId roi (some ⟨some c, some m, some st⟩)).sample_stride = st ∧
     (analyzeMultiZone videoId zones (some ⟨some c, some m, some st⟩)).conf = c ∧
     (analyzeMultiZone videoId zones (some ⟨some c, some m, some st⟩)).min_wait_sec_filter = m ∧
     (analyzeMultiZone videoId zones (some ⟨some c, some m, some st⟩)).sample_stride = st) ∧
    ((analyzeSingleZone videoId roi (some ⟨some 0, some 0, some 0⟩)).conf = 2/5 ∧
     (analyzeSingleZone videoId roi (some ⟨some 0, some 0, some 0⟩)).min_wait_sec_filter = 1 ∧
     (analyzeSingleZone videoId roi (some ⟨some 0, some 0, some 0⟩)).sample_stride = 40) := by
  simp [analyzeSingleZone, analyzeMultiZone, jsOr, hc, hm, hst]

theorem C5_witness :
    ((3:ℚ) ≠ 0 ∧ (2:ℚ) ≠ 0 ∧ (50:ℚ) ≠ 0) ∧
    (((analyzeSingleZone "v" [] none).conf = 2/5 ∧
      (analyzeSingleZone "v" [] none).min_wait_sec_filter = 1 ∧
      (analyzeSingleZone "v" [] none).sample_stride = 40 ∧
      (analyzeMultiZone "v" [] none).conf = 2/5 ∧
      (analyzeMultiZone "v" [] none).min_wait_sec_filter = 1 ∧
      (analyzeMultiZone "v" [] none).sample_stride = 40) ∧
     ((analyzeSingleZone "v" [] (some ⟨some 3, some 2, some 50⟩)).conf = 3 ∧
      (analyzeSingleZone "v" [] (some ⟨some 3, some 2, some 50⟩)).min_wait_sec_filter = 2 ∧
      (analyzeSingleZone "v" [] (some ⟨some 3, some 2, some 50⟩)).sample_stride = 50 ∧
      (analyzeMultiZone "v" [] (some ⟨some 3, some 2, some 50⟩)).conf = 3 ∧
      (analyzeMultiZone "v" [] (some ⟨some 3, some 2, some 50⟩)).min_wait_sec_filter = 2 ∧
      (analyzeMultiZone "v" [] (some ⟨some 3, some 2, some 50⟩)).sample_stride = 50) ∧
     ((analyzeSingleZone "v" [] (some ⟨some 0, some 0, some 0⟩)).conf = 2/5 ∧
      (analyzeSingleZone "v" [] (some ⟨some 0, some 0, some 0⟩)).min_wait_sec_filter = 1 ∧
      (analyzeSingleZone "v" [] (some ⟨some 0, some 0, some 0⟩)).sample_stride = 40)) :=
  ⟨⟨by decide, by decide, by decide⟩,
   C5_analyze_passthrough "v" [] [] 3 2 50 (by decide) (by decide) (by decide)⟩

theorem string_append_s_ne_NA (t : String) : t ++ "s" ≠ "N/A" := by
  intro h
  have h2 := congrArg (fun u : String => u.data.getLast?) h
  simp only [String.data_append] at h2
  rw [List.getLast?_concat] at h2
  simp at h2

/-- C3: a zone with no measured wait samples yields null avg, min and max
statistics rather than an error (the aggregator guards the division), and
formatTime renders N/A exactly for a null wait value. -/
theorem C3_empty_metrics_formatTime :
    (∀ z allClosed snaps fps thr,
      (zoneResultOf z allClosed snaps fps thr).wait_times = [] →
        (zoneResultOf z allClosed snaps fps thr).metrics.avg_wait = none ∧
        (zoneResultOf z allClosed snaps fps thr).metrics.min_wait = none ∧
        (zoneResultOf z allClosed snaps fps thr).metrics.max_wait = none) ∧
    (∀ sec : Option ℚ, formatTime sec = "N/A" ↔ sec = none) := by
  constructor
  · intro z ac snaps fps thr hw
    simp only [zoneResultOf] at hw ⊢
    rw [hw]
    exact ⟨rfl, rfl, rfl⟩
  · intro sec
    cases sec with
    | none => simp [formatTime]
    | some s =>
      apply iff_of_false
      · simp only [formatTime]
        split
        · exact string_append_s_ne_NA _
        · exact string_append_s_ne_NA _
      · simp

theorem C3_witness :
    ((zoneResultOf demoZone [] [] 10 1).wait_times = [] ∧
     (zoneResultOf demoZone [] [] 10 1).metrics.avg_wait = none ∧
     (zoneResultOf demoZone [] [] 10 1).metrics.min_wait = none ∧
     (zoneResultOf demoZone [] [] 10 1).metrics.max_wait = none) ∧
    (formatTime none = "N/A" ↔ (none : Option ℚ) = none) :=
  ⟨⟨rfl, C3_empty_metrics_formatTime.1 demoZone [] [] 10 1 rfl⟩,
   C3_empty_metrics_formatTime.2 none⟩

theorem dedup_filter_le {α β : Type} [DecidableEq β] (l : List α)
    (p : α → Bool) (f : α → β) :
    ((l.filter p).map f).dedup.length ≤ (l.map f).dedup.length := by
  rw [← List.card_toFinset, ← List.card_toFinset]
  apply Finset.card_le_card
  intro x hx
  rw [List.mem_toFinset] at hx ⊢
  obtain ⟨a, ha, rfl⟩ := List.mem_map.mp hx
  exact List.mem_map_of_mem f (List.mem_of_mem_filter ha)

theorem zoneResultOf_measured_le (z : SpecZone) (ac : List ClosedIv)
    (snaps : List QueueSnapshot) (fps thr : ℚ) :
    (zoneResultOf z ac snaps fps thr).metrics.num_people_measured ≤
    (zoneResultOf z ac snaps fps thr).metrics.total_people_tracked := by
  simp only [zoneResultOf]
  exact dedup_filter_le _ _ _

theorem analysisZones_measured_le (e : Except EngineError Session) :
    ∀ zr ∈ analysisZonesOf e,
      zr.metrics.num_people_measured ≤ zr.metrics.total_people_tracked := by
  cases e with
  | error e =>
    intro zr h
    simp [analysisZonesOf] at h
  | ok s =>
    intro zr hzr
    simp only [analysisZonesOf, finalizeS, List.mem_map] at hzr
    obtain ⟨z, hz, rfl⟩ := hzr
    exact zoneResultOf_measured_le _ _ _ _ _

theorem measuredPeople_le_totalPeople (zs : List ZoneResultS)
    (h : ∀ zr ∈ zs, zr.metrics.num_people_measured ≤ zr.metrics.total_people_tracked) :
    measuredPeopleOf zs ≤ totalPeopleOf zs := by
  simp only [measuredPeopleOf, totalPeopleOf]
  exact List.sum_le_sum h

theorem queueEfficiency_bounds (zs : List ZoneResultS)
    (h : measuredPeopleOf zs ≤ totalPeopleOf zs) :
    0 ≤ queueEfficiency zs ∧ queueEfficiency zs ≤ 100 := by
  unfold queueEfficiency
  split
  · next ht =>
    have htq : (0:ℚ) < (totalPeopleOf zs : ℚ) := by exact_mod_cast ht
    have hmq : ((measuredPeopleOf zs : ℚ)) ≤ (totalPeopleOf zs : ℚ) := by
      exact_mod_cast h
    have hx0 : (0:ℚ) ≤ (measuredPeopleOf zs : ℚ) / (totalPeopleOf zs : ℚ) * 100 := by
      positivity
    have hx1 : (measuredPeopleOf zs : ℚ) / (totalPeopleOf zs : ℚ) * 100 ≤ 100 := by
      have h1 : (measuredPeopleOf zs : ℚ) / (totalPeopleOf zs : ℚ) ≤ 1 :=
        (div_le_one htq).mpr hmq
      nlinarith
    rw [jsRound, jsFloor_eq]
    constructor
    · exact Int.le_floor.mpr (by push_cast; linarith)
    · have h2 : (⌊(measuredPeopleOf zs : ℚ) / (totalPeopleOf zs : ℚ) * 100 + 1/2⌋ : ℤ) ≤
          ⌊(201/2 : ℚ)⌋ := Int.floor_le_floor (by linarith)
      have h3 : (⌊(201/2 : ℚ)⌋ : ℤ) = 100 := by
        rw [Int.floor_eq_iff] <;> norm_num
      omega
  · exact ⟨le_refl 0, by norm_num⟩

/-- C1: in every AnalysisResult the engine can produce, each zone's
num_people_measured is at most its total_people_tracked; consequently the
dashboard's derived abandoned count (total minus measured) is never
negative and its queue efficiency percentage lies between 0 and 100. -/
theorem C1_measured_le_tracked (zones : List SpecZone) (fps : Option ℚ)
    (cfg : SpecConfig) (frames : List (ℕ × List Detection)) :
    (∀ zr ∈ analysisZonesOf (runSession zones fps cfg frames),
      zr.metrics.num_people_measured ≤ zr.metrics.total_people_tracked) ∧
    0 ≤ customersAbandoned (analysisZonesOf (runSession zones fps cfg frames)) ∧
    0 ≤ queueEfficiency (analysisZonesOf (runSession zones fps cfg frames)) ∧
    queueEfficiency (analysisZonesOf (runSession zones fps cfg frames)) ≤ 100 := by
  have h1 := analysisZones_measured_le (runSession zones fps cfg frames)
  have h2 := measuredPeople_le_totalPeople _ h1
  have h3 := queueEfficiency_bounds _ h2
  refine ⟨h1, ?_, h3.1, h3.2⟩
  unfold customersAbandoned
  omega

theorem foldl_min_le_init (l : List ℚ) : ∀ a : ℚ, l.foldl min a ≤ a := by
  induction l with
  | nil => intro a; simp
  | cons b t ih => intro a; exact (ih (min a b)).trans (min_le_left a b)

theorem foldl_min_le_mem (l : List ℚ) : ∀ a x, x ∈ l → l.foldl min a ≤ x := by
  induction l with
  | nil => intro a x h; cases h
  | cons b t ih =>
    intro a x hx
    rcases List.mem_cons.mp hx with rfl | h
    · exact (foldl_min_le_init t (min a x)).trans (min_le_right a x)
    · exact ih (min a b) x h

theorem jsListMin_le (l : List ℚ) (x : ℚ) (hx : x ∈ l) : jsListMin l ≤ x := by
  cases l with
  | nil => cases hx
  | cons a t =>
    rcases List.mem_cons.mp hx with rfl | h
    · exact foldl_min_le_init t x
    · exact foldl_min_le_mem t a x h

theorem bumpCount_spec (h : List HBucket) (i : ℕ) (hi : i < h.length) :
    ∃ h2, bumpCount h i = some h2 ∧ h2.length = h.length ∧
      (h2.map (fun b => b.count)).sum = (h.map (fun b => b.count)).sum + 1 := by
  induction h generalizing i with
  | nil => simp at hi
  | cons b t ih =>
    cases i with
    | zero =>
      refine ⟨{ b with count := b.count + 1 } :: t, rfl, by simp, by simp; omega⟩
    | succ n =>
      have hn : n < t.length := by simpa using hi
      obtain ⟨t2, ht2, hlen, hsum⟩ := ih n hn
      refine ⟨b :: t2, ?_, by simp [hlen], by simp [hsum]; omega⟩
      simp [bumpCount, ht2]

theorem histFill_spec (mn bs : ℚ) (bu : ℕ) (data : List ℚ) :
    ∀ h : List HBucket, h.length = bu →
    (∀ v ∈ data, 0 ≤ histIndex mn bs bu v ∧ (histIndex mn bs bu v).toNat < bu) →
    ∃ h2, histFill mn bs bu h data = some h2 ∧ h2.length = bu ∧
      (h2.map (fun b => b.count)).sum =
        (h.map (fun b => b.count)).sum + data.length := by
  induction data with
  | nil => intro h hlen _; exact ⟨h, rfl, hlen, by simp⟩
  | cons v vs ih =>
    intro h hlen hidx
    obtain ⟨hge, hltb⟩ := hidx v (List.mem_cons_self v vs)
    have hnotneg : ¬ (histIndex mn bs bu v < 0) := not_lt.mpr hge
    have hi : (histIndex mn bs bu v).toNat < h.length := by
      rw [hlen]; exact hltb
    obtain ⟨h1, hb, hlen1, hsum1⟩ := bumpCount_spec h _ hi
    obtain ⟨h2, hf, hlen2, hsum2⟩ :=
      ih h1 (hlen1.trans hlen) (fun x hx => hidx x (List.mem_cons_of_mem _ hx))
    refine ⟨h2, ?_, hlen2, ?_⟩
    · simp only [histFill, hnotneg, if_false, hb]
      exact hf
    · rw [hsum2, hsum1]
      simp
      omega

theorem histIndex_bounds (mn mx v : ℚ) (bu : ℕ) (hbu : 0 < bu)
    (hmn : mn ≤ v) (hlt : mn < mx) :
    0 ≤ histIndex mn ((mx - mn) / (bu : ℚ)) bu v ∧
    (histIndex mn ((mx - mn) / (bu : ℚ)) bu v).toNat < bu := by
  have hbs : 0 < (mx - mn) / (bu : ℚ) := by
    apply div_pos (by linarith)
    exact_mod_cast hbu
  have hq : 0 ≤ (v - mn) / ((mx - mn) / (bu : ℚ)) :=
    div_nonneg (by linarith) hbs.le
  have hfl : 0 ≤ jsFloor ((v - mn) / ((mx - mn) / (bu : ℚ))) := by
    rw [jsFloor_eq]
    exact Int.floor_nonneg.mpr hq
  have hub : histIndex mn ((mx - mn) / (bu : ℚ)) bu v ≤ (bu : ℤ) - 1 :=
    min_le_right _ _
  have hlb : 0 ≤ histIndex mn ((mx - mn) / (bu : ℚ)) bu v := by
    simp only [histIndex]
    exact le_min hfl (by omega)
  exact ⟨hlb, by omega⟩

/-- C8 (amended): for every wait-time list whose minimum is strictly below
its maximum, createHistogram with 10 buckets returns exactly 10 buckets
whose counts sum to the length of the input, assigning every value
(including the maximum) to some bucket. -/
theorem C8_histogram_total (data : List ℚ) (hne : data ≠ [])
    (hlt : jsListMin data < jsListMax data) :
    ∃ h, createHistogram data 10 = some h ∧ h.length = 10 ∧
      (h.map (fun b => b.count)).sum = data.length := by
  have hlen0 : ¬ (data.length = 0) := by
    simpa [List.length_eq_zero] using hne
  have hbspos : 0 < (jsListMax data - jsListMin data) / ((10 : ℕ) : ℚ) := by
    apply div_pos (by linarith)
    norm_num
  have hbsne : ¬ ((jsListMax data - jsListMin data) / ((10 : ℕ) : ℚ) = 0) :=
    ne_of_gt hbspos
  have hinit :
      ((List.range 10).map (fun i : ℕ =>
        HBucket.mk (jsListMin data + (i : ℚ) * ((jsListMax data - jsListMin data) / ((10 : ℕ) : ℚ)))
          (jsListMin data + ((i : ℚ) + 1) * ((jsListMax data - jsListMin data) / ((10 : ℕ) : ℚ)))
          0 0)).length = 10 := by simp
  have hidx : ∀ v ∈ data,
      0 ≤ histIndex (jsListMin data)
            ((jsListMax data - jsListMin data) / ((10 : ℕ) : ℚ)) 10 v ∧
      (histIndex (jsListMin data)
            ((jsListMax data - jsListMin data) / ((10 : ℕ) : ℚ)) 10 v).toNat < 10 :=
    fun v hv => histIndex_bounds (jsListMin data) (jsListMax data) v 10
      (by norm_num) (jsListMin_le data v hv) hlt
  obtain ⟨h2, hf, hlen2, hsum2⟩ := histFill_spec (jsListMin data)
    ((jsListMax data - jsListMin data) / ((10 : ℕ) : ℚ)) 10 data _ hinit hidx
  refine ⟨h2.map (fun b =>
    { b with percentage :=
        if 0 < maxCountOf h2 then ((b.count : ℚ) / (maxCountOf h2 : ℚ)) * 100
        else 0 }), ?_, by simpa using hlen2, ?_⟩
  · simp only [createHistogram, hlen0, if_false, hbsne, hf]
  · rw [List.map_map]
    have hcomp :
        ((fun b : HBucket => b.count) ∘ (fun b : HBucket =>
          { b with percentage :=
              if 0 < maxCountOf h2 then ((b.count : ℚ) / (maxCountOf h2 : ℚ)) * 100
              else 0 })) = fun b : HBucket => b.count := rfl
    rw [hcomp, hsum2]
    have hzero :
        (((List.range 10).map (fun i : ℕ =>
          HBucket.mk (jsListMin data + (i : ℚ) * ((jsListMax data - jsListMin data) / ((10 : ℕ) : ℚ)))
            (jsListMin data + ((i : ℚ) + 1) * ((jsListMax data - jsListMin data) / ((10 : ℕ) : ℚ)))
            0 0)).map (fun b => b.count)).sum = 0 := by
      rw [List.map_map]
      apply List.sum_eq_zero
      intro x hx
      obtain ⟨i, hi2, rfl⟩ := List.mem_map.mp hx
      rfl
    rw [hzero]
    omega

/-- C8: the claim that every non-empty list is histogrammed without error
is false: a list whose values are all equal (here the single value 5)
gives bucketSize 0, a NaN bucket index, and a thrown TypeError, modelled
as none. -/
theorem C8_counterexample : createHistogram [(5 : ℚ)] 10 = none := by
  norm_num [createHistogram, jsListMin, jsListMax]

theorem C8_witness :
    (([(0 : ℚ), 9] : List ℚ) ≠ [] ∧ jsListMin [(0 : ℚ), 9] < jsListMax [(0 : ℚ), 9]) ∧
    (∃ h, createHistogram [(0 : ℚ), 9] 10 = some h ∧ h.length = 10 ∧
      (h.map (fun b => b.count)).sum = ([(0 : ℚ), 9] : List ℚ).length) :=
  ⟨⟨by decide, by decide⟩,
   C8_histogram_total [(0 : ℚ), 9] (by decide) (by decide)⟩

/-- C7: feeding the same frame sequence with the same zones and
configuration into two independent sessions yields identical analysis
results: the engine is deterministic. -/
theorem C7_determinism (zones : List SpecZone) (fps : Option ℚ)
    (cfg : SpecConfig) (frames : List (ℕ × List Detection)) (s1 s2 : Session)
    (h1 : runSession zones fps cfg frames = .ok s1)
    (h2 : runSession zones fps cfg frames = .ok s2) :
    finalizeS s1 = finalizeS s2 := by
  rw [h1] at h2
  cases h2
  rfl

theorem C7_witness : finalizeS demoSessionEmpty = finalizeS demoSessionEmpty :=
  C7_determinism [demoZone] (some 10) demoCfg demoFramesEmpty
    demoSessionEmpty demoSessionEmpty rfl rfl

theorem stepOpenIv_fst_spec (b1 b2 : Bool) (grace frame : ℕ) (iv iv2 : OpenIv)
    (h : (stepOpenIv b1 b2 grace frame iv).1 = some iv2) :
    iv2 = { iv with last_present := frame } ∨ iv2 = iv := by
  unfold stepOpenIv at h
  split_ifs at h <;> simp_all

theorem stepOpenIv_snd_spec (b1 b2 : Bool) (grace frame : ℕ) (iv : OpenIv)
    (civ : ClosedIv) (h : (stepOpenIv b1 b2 grace frame iv).2 = some civ) :
    civ.enter_frame = iv.enter_frame ∧ civ.exit_frame = iv.last_present := by
  unfold stepOpenIv at h
  split_ifs at h
  · cases h
    exact ⟨rfl, rfl⟩
  · cases h
    exact ⟨rfl, rfl⟩

theorem advance_open_mem (s : Session) (frame : ℕ) (dets : List Detection)
    (iv : OpenIv) (h : iv ∈ (advance s frame dets).openIvs) :
    (∃ iv0 ∈ s.openIvs, iv = { iv0 with last_present := frame } ∨ iv = iv0) ∨
    (iv.enter_frame = frame ∧ iv.last_present = frame) := by
  simp only [advance] at h
  rw [List.mem_append] at h
  rcases h with hk | hfr
  · obtain ⟨pr, hpr, hfst⟩ := List.mem_filterMap.mp hk
    obtain ⟨iv0, hiv0, rfl⟩ := List.mem_map.mp hpr
    exact Or.inl ⟨iv0, hiv0, stepOpenIv_fst_spec _ _ _ _ _ _ hfst⟩
  · right
    obtain ⟨z, hz, hmem⟩ := List.mem_flatMap.mp hfr
    obtain ⟨i, hi, rfl⟩ := List.mem_map.mp hmem
    exact ⟨rfl, rfl⟩

theorem advance_closed_mem (s : Session) (frame : ℕ) (dets : List Detection)
    (civ : ClosedIv) (h : civ ∈ (advance s frame dets).closedIvs) :
    civ ∈ s.closedIvs ∨
    ∃ iv0 ∈ s.openIvs,
      civ.enter_frame = iv0.enter_frame ∧ civ.exit_frame = iv0.last_present := by
  simp only [advance] at h
  rw [List.mem_append] at h
  rcases h with h | h
  · exact Or.inl h
  · obtain ⟨pr, hpr, hsnd⟩ := List.mem_filterMap.mp h
    obtain ⟨iv0, hiv0, rfl⟩ := List.mem_map.mp hpr
    exact Or.inr ⟨iv0, hiv0, stepOpenIv_snd_spec _ _ _ _ _ _ hsnd⟩

theorem advance_inv (s : Session) (frame : ℕ) (dets : List Detection)
    (hs : SessionInv s) (hf : s.lastFrame.getD 0 ≤ frame) :
    SessionInv (advance s frame dets) := by
  obtain ⟨hopen, hclosed⟩ := hs
  constructor
  · intro iv hiv
    have hLast : (advance s frame dets).lastFrame = some frame := rfl
    rw [hLast]
    rcases advance_open_mem s frame dets iv hiv with ⟨iv0, hiv0, hcase⟩ | ⟨he, hl⟩
    · obtain ⟨h1, h2⟩ := hopen iv0 hiv0
      rcases hcase with rfl | rfl
      · exact ⟨h1.trans (h2.trans hf), le_refl _⟩
      · exact ⟨h1, h2.trans hf⟩
    · refine ⟨?_, ?_⟩
      · rw [he, hl]
      · rw [hl]
        exact le_refl _
  · intro civ hciv
    rcases advance_closed_mem s frame dets civ hciv with h | ⟨iv0, hiv0, he, hx⟩
    · exact hclosed civ h
    · rw [he, hx]
      exact (hopen iv0 hiv0).1

theorem feedS_inv (s : Session) (frame : ℕ) (dets : List Detection)
    (s2 : Session) (hs : SessionInv s) (h : feedS s frame dets = .ok s2) :
    SessionInv s2 := by
  unfold feedS at h
  split_ifs at h with hlt
  cases h
  exact advance_inv s frame dets hs (by omega)

theorem feedAll_inv (frames : List (ℕ × List Detection)) :
    ∀ s s2 : Session, SessionInv s → feedAll s frames = .ok s2 → SessionInv s2 := by
  induction frames with
  | nil =>
    intro s s2 hs h
    cases h
    exact hs
  | cons p rest ih =>
    intro s s2 hs h
    cases p with
    | mk f dets =>
      simp only [feedAll] at h
      cases hfs : feedS s f dets with
      | error e => rw [hfs] at h; cases h
      | ok s1 =>
        rw [hfs] at h
        exact ih s1 s2 (feedS_inv s f dets s1 hs hfs) h

theorem start_inv (zones : List SpecZone) (fps : Option ℚ) (cfg : SpecConfig)
    (s0 : Session) (h : start zones fps cfg = .ok s0) : SessionInv s0 := by
  cases fps with
  | none => simp [start] at h
  | some f =>
    simp only [start] at h
    split_ifs at h with h1 h2 h3
    cases h
    constructor
    · intro iv hiv
      cases hiv
    · intro civ hciv
      cases hciv

theorem runSession_inv (zones : List SpecZone) (fps : Option ℚ)
    (cfg : SpecConfig) (frames : List (ℕ × List Detection)) (s : Session)
    (h : runSession zones fps cfg frames = .ok s) : SessionInv s := by
  unfold runSession at h
  cases hst : start zones fps cfg with
  | error e => rw [hst] at h; cases h
  | ok s0 =>
    rw [hst] at h
    exact feedAll_inv frames s0 s (start_inv zones fps cfg s0 hst) h

/-- C2 (amended): every closed dwell interval produced by a session run
satisfies exit_frame >= enter_frame (equality can occur, for a dwell
confirmed at a single frame, so the strict inequality of the original
claim fails), and its wait time in seconds equals
(exit_frame - enter_frame) / fps for every frame rate. -/
theorem C2_closed_intervals (zones : List SpecZone) (fps : Option ℚ)
    (cfg : SpecConfig) (frames : List (ℕ × List Detection)) :
    ∀ civ ∈ closedIntervalsOf (runSession zones fps cfg frames),
      civ.enter_frame ≤ civ.exit_frame ∧
      ∀ f : ℚ, waitSec civ f =
        ((civ.exit_frame : ℚ) - (civ.enter_frame : ℚ)) / f := by
  intro civ hciv
  constructor
  · unfold closedIntervalsOf at hciv
    cases hrun : runSession zones fps cfg frames with
    | error e => rw [hrun] at hciv; cases hciv
    | ok s =>
      rw [hrun] at hciv
      obtain ⟨hopen, hclosed⟩ := runSession_inv zones fps cfg frames s hrun
      unfold allClosedOf at hciv
      rw [List.mem_append] at hciv
      rcases hciv with h | h
      · exact hclosed civ h
      · obtain ⟨iv0, hiv0, rfl⟩ := List.mem_map.mp h
        have h0 := hopen iv0 hiv0
        exact h0.1.trans h0.2
  · intro f
    unfold waitSec elapsed
    rw [div_sub_div_same]

theorem demoDet_centroid : centroid demoDet.bbox = (2, 2) := by
  norm_num [centroid, demoDet]

theorem demoZone_contains : pointInPolygon (2, 2) demoZone.polygon = true := by
  norm_num [pointInPolygon, demoZone, polygonEdges, onSegment, edgeCrossing,
    List.countP, List.countP.go]

set_option maxHeartbeats 2000000 in
theorem demoRunOne_closed : closedIntervalsOf demoRunOne = [⟨7, 1, 0, 0⟩] := by
  norm_num [closedIntervalsOf, demoRunOne, runSession, start, demoZone, demoCfg,
    feedAll, feedS, advance, stepOpenIv, identInZone, identObserved,
    identsInZone, allClosedOf, polygonOf, demoDet, centroid, pointInPolygon,
    polygonEdges, onSegment, edgeCrossing, List.countP, List.countP.go, elapsed]

/-- C2: the claim that exit_frame is strictly greater than enter_frame for
every closed interval is false: a dwell confirmed at a single frame closes
with exit_frame equal to enter_frame (here both 0). -/
theorem C2_counterexample :
    ¬ (∀ civ ∈ closedIntervalsOf demoRunOne,
        civ.enter_frame < civ.exit_frame) := by
  intro hall
  have hmem : (⟨7, 1, 0, 0⟩ : ClosedIv) ∈ closedIntervalsOf demoRunOne := by
    rw [demoRunOne_closed]
    exact List.mem_singleton.mpr rfl
  exact absurd (hall _ hmem) (by norm_num)

theorem C2_witness :
    ((⟨7, 1, 0, 0⟩ : ClosedIv) ∈
      closedIntervalsOf (runSession [demoZone] (some 10) demoCfg [(0, [demoDet])])) ∧
    ((⟨7, 1, 0, 0⟩ : ClosedIv).enter_frame ≤ (⟨7, 1, 0, 0⟩ : ClosedIv).exit_frame ∧
     ∀ f : ℚ, waitSec ⟨7, 1, 0, 0⟩ f =
       (((⟨7, 1, 0, 0⟩ : ClosedIv).exit_frame : ℚ) -
         ((⟨7, 1, 0, 0⟩ : ClosedIv).enter_frame : ℚ)) / f) :=
  have hmem : (⟨7, 1, 0, 0⟩ : ClosedIv) ∈
      closedIntervalsOf (runSession [demoZone] (some 10) demoCfg [(0, [demoDet])]) := by
    rw [show closedIntervalsOf (runSession [demoZone] (some 10) demoCfg [(0, [demoDet])]) =
        [⟨7, 1, 0, 0⟩] from demoRunOne_closed]
    exact List.mem_singleton.mpr rfl
  ⟨hmem, C2_closed_intervals [demoZone] (some 10) demoCfg [(0, [demoDet])] ⟨7, 1, 0, 0⟩ hmem⟩
